import Mathlib

/-
Verification of the usb host-side access layer (Go package usb).

Shallow embedding: the pure logic of the Go source is translated into Lean
definitions.  Kernel calls (ioctl), the data-backing strategies whose
implementations live outside the translated sources, and the name-database
lookups are modelled as explicit oracle inputs carrying the (value, error)
pair the Go call would return.  Go panics (out-of-range slice indexing) are
modelled by Option-valued builders returning none.  Go int is modelled as
Int, Go slices as List, nil pointers as Option.none.
-/

namespace Usb

/-- A kernel errno value (e.g. unix.ENODATA). -/
abbrev Errno := Int

/-- unix.ENODATA on Linux. -/
def ENODATA : Errno := 61

/-- Speed enumeration from device.go. -/
inductive Speed where
  | unknown
  | low
  | full
  | high
  | wireless
  | super
  | superPlus
  deriving DecidableEq

/-- Errors produced by the library (each Go error message becomes one
constructor carrying the data interpolated into the message). -/
inductive GoError where
  | deviceNotOpen (op : String)
  | notOutEndpoint (addr : Int)
  | notInEndpoint (addr : Int)
  | notBulkEndpoint (addr ttype : Int)
  | bulkOutFailed (addr : Int) (inner : Errno)
  | bulkInFailed (addr : Int) (inner : Errno)
  | ctxCanceled
  | closeOpenDevices (count : Nat)
  | kernelErr (e : Errno)
  deriving DecidableEq

/-- Endpoint (part_000): address byte includes the direction bit 7. -/
structure Endpoint where
  address : Int
  transferType : Int
  maxPacketSize : Int
  maxISOPacketSize : Int
  deriving DecidableEq

/-- Interface (interface.go): interface number, alternate setting, endpoints.
The back-reference to the owning Device is dropped (non-owning pointer). -/
structure Interface where
  id : Nat
  alternate : Int
  endpoints : List Endpoint
  deriving DecidableEq

/-- Configuration (device.go).  The back-reference to the owning Device is
dropped (non-owning pointer). -/
structure Configuration where
  selfPowered : Bool
  remoteWakeup : Bool
  maxPower : Int
  value : Nat
  interfaces : List Interface
  deriving DecidableEq

/-- Which data-backing strategy was selected at build time. -/
inductive DataSource where
  | sysfs
  | usbfs
  deriving DecidableEq

/-- The non-recursive fields of Device (device.go).  ActiveConfig, a pointer
into the Configs slice in Go, is modelled as an optional index into configs.
The open USBFS file handle is modelled by the flag fOpen. -/
structure DevFields where
  bus : Int
  device : Int
  port : Int
  ports : List Int
  vendor : Nat
  vendorNameFromIdFile : String
  vendorNameFromDevice : String
  product : Nat
  productNameFromIdFile : String
  productNameFromDevice : String
  speed : Speed
  configs : List Configuration
  activeConfig : Option Nat
  source : DataSource
  fOpen : Bool
  sysPath : String
  deriving DecidableEq

/-- Device with its Parent chain (a nil Parent pointer is the root case). -/
inductive Device where
  | root (f : DevFields)
  | child (f : DevFields) (parent : Device)
  deriving DecidableEq

/-- The field record of a device. -/
def Device.fields : Device → DevFields
  | .root f => f
  | .child f _ => f

/-- The Parent pointer of a device (none models nil). -/
def Device.parent? : Device → Option Device
  | .root _ => none
  | .child _ p => some p

/-- Build a device from fields and an optional parent. -/
def Device.make (f : DevFields) : Option Device → Device
  | none => .root f
  | some p => .child f p

/-- Port number of a device. -/
def Device.port (d : Device) : Int := d.fields.port

/-- The walk of getPorts (interface.go): from the device itself out along the
Parent chain, collecting each hop whose Port is nonzero, in walk order. -/
def getPortsAux : Device → List Int
  | .root f => if f.port ≠ 0 then [f.port] else []
  | .child f p => (if f.port ≠ 0 then [f.port] else []) ++ getPortsAux p

/-- getPorts (interface.go lines 234-248): collect nonzero ports walking the
Parent chain starting at the device itself, then reverse (root-first).
MAX_PORTS = 7 in the source is only the initial capacity of the slice. -/
def getPorts (d : Device) : List Int := (getPortsAux d).reverse

/-- The parent chain of a device, device-first, the device itself included. -/
def devChain : Device → List Device
  | .root f => [.root f]
  | .child f p => .child f p :: devChain p

/-- A fields record with all defaults but the given port, used to build the
synthetic chains of the spec's testable properties. -/
def testFields (port : Int) : DevFields :=
  { bus := 0, device := 0, port := port, ports := [], vendor := 0,
    vendorNameFromIdFile := "", vendorNameFromDevice := "", product := 0,
    productNameFromIdFile := "", productNameFromDevice := "",
    speed := .unknown, configs := [], activeConfig := none,
    source := .usbfs, fOpen := false, sysPath := "" }

/-- Root hub A with port 3. -/
def devA : Device := .root (testFields 3)

/-- Hub B with port 1, parent A. -/
def devB : Device := .child (testFields 1) devA

/-- Device C with port 2, parent B. -/
def devC : Device := .child (testFields 2) devB

/-- A parent chain of depth n+1 with nonzero ports 1, 2, ..., n+1
(root port 1). -/
def chainN : Nat → Device
  | 0 => .root (testFields 1)
  | n + 1 => .child (testFields (n + 2)) (chainN n)

/-- A chain of depth 8, every hop with a nonzero port. -/
def dev8 : Device := chainN 7

/-- A lone device whose recorded port is negative. -/
def devNeg : Device := .root (testFields (-5))

/- ---------- positional placement (the builder loops of interface.go) ----- -/

/-- Bounds-checked slice store l[i] = b.  A Go out-of-range index panics,
modelled as none. -/
def setAt (l : List β) (i : Nat) (b : β) : Option (List β) :=
  if i < l.length then some (l.set i b) else none

/-- One iteration of a positional-placement loop: build the element with mk
(which may itself panic) and store it at the position computed by pos (none
models a negative Go index, which is out of range). -/
def placeStep (mk : α → Option β) (pos : α → Option Nat) (l : List β) (x : α) :
    Option (List β) :=
  match mk x, pos x with
  | some b, some i => setAt l i b
  | _, _ => none

/-- The positional-placement loops of toDevice / toConfig / toInterface:
fold placeStep over the descriptor records, starting from a freshly
allocated slice of default values. -/
def placeList (mk : α → Option β) (pos : α → Option Nat) :
    List β → List α → Option (List β)
  | l, [] => some l
  | l, x :: rest =>
    match placeStep mk pos l x with
    | some l2 => placeList mk pos l2 rest
    | none => none

/- ---------- descriptor records (input of the model builder) -------------- -/

/-- gusb.EndpointDescriptor, as consumed by toEndpoint. -/
structure EndpointDescriptor where
  address : Int
  transferType : Int
  maxPacketSize : Int
  deriving DecidableEq

/-- gusb.InterfaceDescriptor, as consumed by toInterface. -/
structure InterfaceDescriptor where
  interfaceNumber : Nat
  numEndpoints : Nat
  endpoints : List EndpointDescriptor
  deriving DecidableEq

/-- gusb.ConfigDescriptor, as consumed by toConfig. -/
structure ConfigDescriptor where
  selfPowered : Bool
  remoteWakeup : Bool
  maxPower : Int
  value : Nat
  numInterfaces : Nat
  interfaces : List InterfaceDescriptor
  deriving DecidableEq

/-- gusb.DeviceDescriptor, as consumed by toDevice. -/
structure DeviceDescriptor where
  bus : Int
  dev : Int
  sysPath : String
  vendor : Nat
  product : Nat
  numConfigs : Nat
  configs : List ConfigDescriptor
  deriving DecidableEq

/-- The results the selected data-backing strategy would hand back during
toDevice; each Go call returns a (value, error) pair, modelled verbatim.
The backing implementations are outside the translated sources, so these
are oracle inputs. -/
structure BackingResults where
  devNum : Int × Option Errno
  busNum : Int × Option Errno
  vendorName : String × Option Errno
  productName : String × Option Errno
  port : Int × Option Errno
  activeConfig : Int × Option Errno
  speed : Speed × Option Errno
  parent : Option Device × Option Errno
  deriving DecidableEq

/- ---------- model builder (interface.go toDevice / toConfig / ...) ------- -/

/-- The zero value of Endpoint (a slot make allocates and no descriptor
fills). -/
def defaultEndpoint : Endpoint :=
  { address := 0, transferType := 0, maxPacketSize := 0, maxISOPacketSize := 0 }

/-- The zero value of Interface. -/
def defaultInterface : Interface :=
  { id := 0, alternate := 0, endpoints := [] }

/-- The zero value of Configuration. -/
def defaultConfiguration : Configuration :=
  { selfPowered := false, remoteWakeup := false, maxPower := 0, value := 0,
    interfaces := [] }

/-- toEndpoint (interface.go): copy the descriptor record verbatim;
MaxISOPacketSize is also filled from MaxPacketSize in the source. -/
def toEndpoint (e : EndpointDescriptor) : Endpoint :=
  { address := e.address, transferType := e.transferType,
    maxPacketSize := e.maxPacketSize, maxISOPacketSize := e.maxPacketSize }

/-- Position of an endpoint in the toInterface loop: its enumeration index. -/
def epPos (p : Nat × EndpointDescriptor) : Option Nat := some p.1

/-- toInterface (interface.go): allocate NumEndpoints slots and store each
endpoint at its loop index (a longer descriptor list than NumEndpoints
panics, modelled as none). -/
def toInterface (i : InterfaceDescriptor) : Option Interface :=
  (placeList (fun p => some (toEndpoint p.2)) epPos
      (List.replicate i.numEndpoints defaultEndpoint) i.endpoints.enum).map
    fun eps => { id := i.interfaceNumber, alternate := 0, endpoints := eps }

/-- Position of an interface in the toConfig loop: its interface number. -/
def intfPos (i : InterfaceDescriptor) : Option Nat := some i.interfaceNumber

/-- toConfig (interface.go lines 148-162): allocate NumInterfaces slots and
store each interface record at index = its interface number. -/
def toConfig (c : ConfigDescriptor) : Option Configuration :=
  (placeList toInterface intfPos
      (List.replicate c.numInterfaces defaultInterface) c.interfaces).map
    fun ifs => { selfPowered := c.selfPowered, remoteWakeup := c.remoteWakeup,
                 maxPower := c.maxPower * 2, value := c.value,
                 interfaces := ifs }

/-- Index Value - 1 of the toDevice placement loop as a function of Value.
A Value of 0 yields an out-of-range Go index, modelled as none. -/
def posOfValue (v : Nat) : Option Nat :=
  if v = 0 then none else some (v - 1)

/-- Position of a configuration in the toDevice loop: index Value - 1. -/
def cfgPos (c : ConfigDescriptor) : Option Nat := posOfValue c.value

/-- The active-configuration selector toDevice ends up using: the fetched
value on success, 1 when the fetch failed. -/
def activeSel (br : BackingResults) : Int :=
  if br.activeConfig.2 = none then br.activeConfig.1 else 1

/-- toDevice (interface.go lines 64-146).  vnIdFile/pnIdFile are the static
name-database lookups, sysfsLookup the result of getSysfsFromBusDev, br the
data-backing fetch results; all are inputs the Go code obtains from sources
outside the translated files.  none models a Go index-out-of-range panic. -/
def toDevice (dd : DeviceDescriptor) (vnIdFile pnIdFile sysfsLookup : String)
    (br : BackingResults) : Option Device :=
  match placeList toConfig cfgPos
      (List.replicate dd.numConfigs defaultConfiguration) dd.configs with
  | none => none
  | some configs =>
    let sysPath := if dd.sysPath = "" then sysfsLookup else dd.sysPath
    let src := if sysPath ≠ "" then DataSource.sysfs else DataSource.usbfs
    let devNum :=
      if dd.dev ≤ 0 then
        if br.devNum.2 = none then br.devNum.1 else dd.dev
      else dd.dev
    let busNum := if dd.bus ≤ 0 ∧ src = .sysfs then br.busNum.1 else dd.bus
    let sel := activeSel br
    if 1 ≤ sel ∧ sel ≤ (configs.length : Int) then
      let speed := if br.speed.2 = none then br.speed.1 else Speed.unknown
      let parent := if src = .sysfs then br.parent.1 else none
      let f : DevFields :=
        { bus := busNum, device := devNum, port := br.port.1, ports := [],
          vendor := dd.vendor, vendorNameFromIdFile := vnIdFile,
          vendorNameFromDevice := br.vendorName.1,
          product := dd.product, productNameFromIdFile := pnIdFile,
          productNameFromDevice := br.productName.1,
          speed := speed, configs := configs,
          activeConfig := some (sel - 1).toNat,
          source := src, fOpen := false, sysPath := sysPath }
      let d0 := Device.make f parent
      some (Device.make { f with ports := getPorts d0 } parent)
    else none

/-- Replace the fields of a device, keeping its parent. -/
def Device.withFields (d : Device) (f : DevFields) : Device :=
  Device.make f d.parent?

/-- Device.SetConfiguration (device.go lines 191-197).  callErr is the
(missing-source) dataSource.setConfiguration result.  The source stores
a pointer to Configs[cfg-1] into ActiveConfig when that call returned a
NON-nil error; an out-of-range cfg panics there, modelled as none. -/
def setConfiguration (d : Device) (cfg : Int) (callErr : Option Errno) :
    Option (Device × Option Errno) :=
  match callErr with
  | none => some (d, none)
  | some e =>
    if 1 ≤ cfg ∧ cfg - 1 < (d.fields.configs.length : Int) then
      some (d.withFields { d.fields with activeConfig := some (cfg - 1).toNat },
            some e)
    else none

/-- The aliasing invariant: a non-null ActiveConfig refers to an element of
the same device's Configs. -/
def activeInv (d : Device) : Prop :=
  ∀ i, d.fields.activeConfig = some i → i < d.fields.configs.length

/- ---------- transfer engine (part_000) ----------------------------------- -/

/-- TransferTypeBulk (part_000): bulk = 0x02. -/
def TransferTypeBulk : Int := 2

/-- gusb.BulkTransfer: the packet of the USBDEVFS_BULK ioctl (the data
pointer is not modelled). -/
structure BulkTransfer where
  ep : Int
  len : Int
  timeout : Int
  deriving DecidableEq

/-- Result of a (possibly cancellable) transfer call: the kernel bulk
request issued, if any, with its packet, the returned byte count, and the
returned error. -/
structure TransferRes where
  issued : Option BulkTransfer
  n : Int
  err : Option GoError
  deriving DecidableEq

/-- Whether the kernel bulk-transfer request was issued. -/
def TransferRes.issuedKernel (r : TransferRes) : Bool := r.issued.isSome

/-- OutEndpoint.BulkOut (part_000 lines 42-69).  devOpen models
e.i != nil && e.i.d != nil && e.i.d.f != nil; ioctlN/ioctlErr are the
(value, error) pair of the USBDEVFS_BULK ioctl, issued only when every
precondition check passed. -/
def bulkOut (devOpen : Bool) (e : Endpoint) (dataLen timeoutMs : Int)
    (ioctlN : Int) (ioctlErr : Option Errno) : TransferRes :=
  if devOpen = false then
    ⟨none, 0, some (.deviceNotOpen "BulkOut")⟩
  else if Int.land e.address 0x80 ≠ 0 then
    ⟨none, 0, some (.notOutEndpoint e.address)⟩
  else if e.transferType ≠ TransferTypeBulk then
    ⟨none, 0, some (.notBulkEndpoint e.address e.transferType)⟩
  else
    let bt : BulkTransfer := ⟨e.address, dataLen, timeoutMs⟩
    match ioctlErr with
    | some er => ⟨some bt, ioctlN, some (.bulkOutFailed e.address er)⟩
    | none => ⟨some bt, ioctlN, none⟩

/-- InEndpoint.BulkIn (part_000 lines 75-102), mirror of bulkOut with the
direction check flipped: bit 7 must be set. -/
def bulkIn (devOpen : Bool) (e : Endpoint) (bufLen timeoutMs : Int)
    (ioctlN : Int) (ioctlErr : Option Errno) : TransferRes :=
  if devOpen = false then
    ⟨none, 0, some (.deviceNotOpen "BulkIn")⟩
  else if Int.land e.address 0x80 = 0 then
    ⟨none, 0, some (.notInEndpoint e.address)⟩
  else if e.transferType ≠ TransferTypeBulk then
    ⟨none, 0, some (.notBulkEndpoint e.address e.transferType)⟩
  else
    let bt : BulkTransfer := ⟨e.address, bufLen, timeoutMs⟩
    match ioctlErr with
    | some er => ⟨some bt, ioctlN, some (.bulkInFailed e.address er)⟩
    | none => ⟨some bt, ioctlN, none⟩

/-- OutEndpoint.WriteContext (part_000 lines 215-257).  ctxDone is whether
the supplied context's disposal signal is already set at call time and
ctxErr its error; ctxWinsRace resolves the select between the disposal
signal and the goroutine's result channel.  When the race is lost the
background BulkOut still ran: the kernel call was issued and its result
discarded. -/
def writeContext (ctxDone : Bool) (ctxErr : GoError) (devOpen : Bool)
    (e : Endpoint) (bufLen : Int) (ioctlN : Int) (ioctlErr : Option Errno)
    (ctxWinsRace : Bool) : TransferRes :=
  if ctxDone then
    ⟨none, 0, some ctxErr⟩
  else if devOpen = false then
    ⟨none, 0, some (.deviceNotOpen "WriteContext")⟩
  else if Int.land e.address 0x80 ≠ 0 then
    ⟨none, 0, some (.notOutEndpoint e.address)⟩
  else if e.transferType ≠ TransferTypeBulk then
    ⟨none, 0, some (.notBulkEndpoint e.address e.transferType)⟩
  else
    let r := bulkOut devOpen e bufLen 0 ioctlN ioctlErr
    if ctxWinsRace then ⟨r.issued, 0, some ctxErr⟩ else r

/-- InEndpoint.ReadContext (part_000 lines 264-306), mirror of
writeContext over BulkIn. -/
def readContext (ctxDone : Bool) (ctxErr : GoError) (devOpen : Bool)
    (e : Endpoint) (bufLen : Int) (ioctlN : Int) (ioctlErr : Option Errno)
    (ctxWinsRace : Bool) : TransferRes :=
  if ctxDone then
    ⟨none, 0, some ctxErr⟩
  else if devOpen = false then
    ⟨none, 0, some (.deviceNotOpen "ReadContext")⟩
  else if Int.land e.address 0x80 = 0 then
    ⟨none, 0, some (.notInEndpoint e.address)⟩
  else if e.transferType ≠ TransferTypeBulk then
    ⟨none, 0, some (.notBulkEndpoint e.address e.transferType)⟩
  else
    let r := bulkIn devOpen e bufLen 0 ioctlN ioctlErr
    if ctxWinsRace then ⟨r.issued, 0, some ctxErr⟩ else r

/- ---------- Context/Registry (part_001) ---------------------------------- -/

/-- usb.Context (part_001): the done channel is modelled by the flag
doneClosed (closed = true, fired by the sync.Once-guarded close), the
registered-device map by a list of device identifiers. -/
structure Context where
  doneClosed : Bool
  devices : List Nat
  deriving DecidableEq

/-- NewContext (part_001). -/
def newContext : Context := { doneClosed := false, devices := [] }

/-- Registration done by OpenDevices: c.devices[dev] = true. -/
def Context.registerDev (c : Context) (dev : Nat) : Context :=
  if dev ∈ c.devices then c else { c with devices := dev :: c.devices }

/-- Context.closeDev (part_001): delete(c.devices, d). -/
def Context.closeDev (c : Context) (dev : Nat) : Context :=
  { c with devices := c.devices.erase dev }

/-- Context.checkOpenDevs (part_001 lines 100-107): a count-reporting error
while any device is still registered. -/
def Context.checkOpenDevs (c : Context) : Option GoError :=
  if 0 < c.devices.length then some (.closeOpenDevices c.devices.length)
  else none

/-- Context.Close (part_001 lines 110-118): refuse while devices are open,
otherwise fire the one-shot disposal signal and return nil. -/
def Context.close (c : Context) : Context × Option GoError :=
  match c.checkOpenDevs with
  | some e => (c, some e)
  | none => ({ c with doneClosed := true }, none)

/- ---------- kernel interface manager (gusb part of interface.go) --------- -/

/-- The (return value, errno) pair of one ioctl, as the Go wrapper hands it
back; errno = none models a nil error. -/
structure IoctlRes where
  r : Int
  errno : Option Errno
  deriving DecidableEq

/-- What gusb.Claim does with the driver-detach ioctl outcome: ENODATA is
the expected no-driver case (debug only), any other failure is logged, and
in every case control proceeds to the claim ioctl. -/
inductive DetachNote where
  | noDriver
  | failedLogged
  | ok
  deriving DecidableEq

/-- The detach step of gusb.Claim (interface.go lines 259-268). -/
def detachStep (res : IoctlRes) : DetachNote :=
  if res.errno = some ENODATA then .noDriver
  else if res.r = -1 then .failedLogged
  else .ok

/-- gusb.Claim (interface.go lines 258-273): detach (result only noted),
then the claim ioctl; its errno is returned exactly when it reported -1. -/
def gusbClaim (detach claimRes : IoctlRes) : DetachNote × Option Errno :=
  (detachStep detach, if claimRes.r = -1 then claimRes.errno else none)

/-- gusb.GetDriver (interface.go lines 289-302): drvName is the name buffer
the ioctl filled, ioErr its error; ENODATA falls through to the success
return. -/
def gusbGetDriver (drvName : String) (ioErr : Option Errno) :
    String × Option Errno :=
  if ioErr = some ENODATA then (drvName, none)
  else
    match ioErr with
    | some e => ("", some e)
    | none => (drvName, none)

/- ---------- concrete fixtures ------------------------------------------- -/

/-- A configuration with selector value 1 and no interfaces. -/
def cfgOnly : Configuration :=
  { selfPowered := false, remoteWakeup := false, maxPower := 0, value := 1,
    interfaces := [] }

/-- A device holding one configuration, no active configuration selected. -/
def devOneCfg : Device := .root { testFields 0 with configs := [cfgOnly] }

/-- devOneCfg after ActiveConfig was pointed at Configs[0]. -/
def devOneCfgSet : Device :=
  .root { testFields 0 with configs := [cfgOnly], activeConfig := some 0 }

/-- A bulk IN endpoint (address 0x81). -/
def epIn : Endpoint :=
  { address := 0x81, transferType := 2, maxPacketSize := 64,
    maxISOPacketSize := 64 }

/-- An endpoint descriptor for a bulk IN endpoint. -/
def epD0 : EndpointDescriptor :=
  { address := 0x81, transferType := 2, maxPacketSize := 64 }

/-- Interface descriptor number 1 with one endpoint. -/
def intfD0 : InterfaceDescriptor :=
  { interfaceNumber := 1, numEndpoints := 1, endpoints := [epD0] }

/-- Interface descriptor number 0 with no endpoints. -/
def intfD1 : InterfaceDescriptor :=
  { interfaceNumber := 0, numEndpoints := 0, endpoints := [] }

/-- Configuration descriptor with Value 1 and two interfaces, listed in the
order 1, 0 (so placement is genuinely positional, not an append). -/
def cfgD1 : ConfigDescriptor :=
  { selfPowered := true, remoteWakeup := false, maxPower := 100, value := 1,
    numInterfaces := 2, interfaces := [intfD0, intfD1] }

/-- Configuration descriptor with Value 2 and one interface. -/
def cfgD2 : ConfigDescriptor :=
  { selfPowered := false, remoteWakeup := true, maxPower := 50, value := 2,
    numInterfaces := 1, interfaces := [intfD1] }

/-- A device descriptor declaring two configurations. -/
def ddTest : DeviceDescriptor :=
  { bus := 1, dev := 4, sysPath := "", vendor := 0x1234, product := 0x5678,
    numConfigs := 2, configs := [cfgD1, cfgD2] }

/-- Backing results where every fetch succeeds; the active configuration
selector fetched is 1 and the parent is devA. -/
def brTest : BackingResults :=
  { devNum := (4, none), busNum := (1, none), vendorName := ("Acme", none),
    productName := ("Widget", none), port := (3, none),
    activeConfig := (1, none), speed := (.high, none),
    parent := (some devA, none) }

/-- The device toDevice builds from ddTest / brTest. -/
def dTest : Device :=
  (toDevice ddTest "AcmeFile" "WidgetFile" "/sys/x" brTest).getD
    (.root (testFields 0))

/-- dTest after SetConfiguration(2) whose backing call errored (the source
updates ActiveConfig exactly then). -/
def dTest2 : Device :=
  ((setConfiguration dTest 2 (some 5)).getD (dTest, none)).1

/-- A device descriptor declaring zero configurations. -/
def ddZero : DeviceDescriptor :=
  { bus := 1, dev := 2, sysPath := "", vendor := 0, product := 0,
    numConfigs := 0, configs := [] }

/-- Backing results whose active-configuration fetch fails. -/
def brFail : BackingResults :=
  { devNum := (0, none), busNum := (0, none), vendorName := ("", none),
    productName := ("", none), port := (0, none),
    activeConfig := (-1, some 5), speed := (.unknown, none),
    parent := (none, none) }

/-- A context with two registered devices. -/
def ctx2 : Context := (newContext.registerDev 1).registerDev 2

/-- ctx2 after both devices were deregistered. -/
def ctx0 : Context := (ctx2.closeDev 1).closeDev 2

/- ---------- helper lemmas ---------------------------------------------- -/

theorem setAt_eq_some {l l' : List β} {i : Nat} {b : β} :
    setAt l i b = some l' ↔ i < l.length ∧ l' = l.set i b := by
  unfold setAt
  split <;> simp_all [eq_comm]

theorem Device.make_fields (f : DevFields) (p : Option Device) :
    (Device.make f p).fields = f := by
  cases p <;> rfl

theorem Device.make_parent (f : DevFields) (p : Option Device) :
    (Device.make f p).parent? = p := by
  cases p <;> rfl

theorem getPortsAux_eq (d : Device) :
    getPortsAux d
      = ((devChain d).map Device.port).filter (fun p => decide (p ≠ 0)) := by
  induction d with
  | root f =>
      by_cases h : f.port = 0 <;>
        simp [getPortsAux, devChain, Device.port, Device.fields, h]
  | child f p ih =>
      by_cases h : f.port = 0 <;>
        simp [getPortsAux, devChain, Device.port, Device.fields, h, ih]

theorem placeStep_eq_some {mk : α → Option β} {pos : α → Option Nat}
    {l l' : List β} {x : α} :
    placeStep mk pos l x = some l' ↔
      ∃ b i, mk x = some b ∧ pos x = some i ∧ i < l.length ∧ l' = l.set i b := by
  unfold placeStep
  cases hmk : mk x with
  | none => simp
  | some b =>
    cases hpos : pos x with
    | none => simp
    | some i => simp [setAt_eq_some, and_assoc]

theorem placeList_length {mk : α → Option β} {pos : α → Option Nat} :
    ∀ {items : List α} {l l' : List β},
      placeList mk pos l items = some l' → l'.length = l.length := by
  intro items
  induction items with
  | nil =>
    intro l l' h
    simp only [placeList] at h
    cases h
    rfl
  | cons x rest ih =>
    intro l l' h
    simp only [placeList] at h
    cases hst : placeStep mk pos l x with
    | none => rw [hst] at h; cases h
    | some l2 =>
      rw [hst] at h
      obtain ⟨b, i, _, _, _, hl2⟩ := placeStep_eq_some.mp hst
      have := ih h
      rw [this, hl2, List.length_set]

theorem placeList_get_frame {mk : α → Option β} {pos : α → Option Nat}
    {j : Nat} :
    ∀ {items : List α} {l l' : List β},
      placeList mk pos l items = some l' →
      (∀ x ∈ items, ∀ i, pos x = some i → i ≠ j) →
      l'.get? j = l.get? j := by
  intro items
  induction items with
  | nil =>
    intro l l' h _
    simp only [placeList] at h
    cases h
    rfl
  | cons x rest ih =>
    intro l l' h hne
    simp only [placeList] at h
    cases hst : placeStep mk pos l x with
    | none => rw [hst] at h; cases h
    | some l2 =>
      rw [hst] at h
      obtain ⟨b, i, _, hpos, _, hl2⟩ := placeStep_eq_some.mp hst
      have hrest := ih h (fun y hy => hne y (List.mem_cons_of_mem _ hy))
      rw [hrest, hl2]
      exact List.get?_set_ne b _ (hne x (List.mem_cons_self _ _) i hpos)

theorem placeList_ok {mk : α → Option β} {pos : α → Option Nat} :
    ∀ {items : List α} {l l' : List β},
      placeList mk pos l items = some l' →
      ∀ x ∈ items, ∃ i b, pos x = some i ∧ mk x = some b ∧ i < l.length := by
  intro items
  induction items with
  | nil => intro l l' _ x hx; cases hx
  | cons y rest ih =>
    intro l l' h x hx
    simp only [placeList] at h
    cases hst : placeStep mk pos l y with
    | none => rw [hst] at h; cases h
    | some l2 =>
      rw [hst] at h
      obtain ⟨b, i, hmk, hpos, hi, hl2⟩ := placeStep_eq_some.mp hst
      rcases List.mem_cons.mp hx with hxy | hxr
      · subst hxy
        exact ⟨i, b, hpos, hmk, hi⟩
      · obtain ⟨i', b', hp', hm', hi'⟩ := ih h x hxr
        refine ⟨i', b', hp', hm', ?_⟩
        have : l2.length = l.length := by rw [hl2, List.length_set]
        omega

theorem placeList_get {mk : α → Option β} {pos : α → Option Nat} :
    ∀ {items : List α} {l l' : List β},
      placeList mk pos l items = some l' →
      (items.map pos).Nodup →
      ∀ x ∈ items, ∀ i, pos x = some i →
        ∃ b, mk x = some b ∧ l'.get? i = some b := by
  intro items
  induction items with
  | nil => intro l l' _ _ x hx; cases hx
  | cons y rest ih =>
    intro l l' h hnd x hx i hposx
    simp only [placeList] at h
    cases hst : placeStep mk pos l y with
    | none => rw [hst] at h; cases h
    | some l2 =>
      rw [hst] at h
      obtain ⟨b, i0, hmk, hpos, hi0, hl2⟩ := placeStep_eq_some.mp hst
      simp only [List.map_cons, List.nodup_cons] at hnd
      rcases List.mem_cons.mp hx with hxy | hxr
      · subst hxy
        rw [hposx] at hpos
        injection hpos with hii
        subst hii
        refine ⟨b, hmk, ?_⟩
        have hfr : l'.get? i = l2.get? i := by
          refine placeList_get_frame h ?_
          intro z hz k hk hki
          subst hki
          exact hnd.1 (by
            rw [hposx, ← hk]
            exact List.mem_map_of_mem pos hz)
        rw [hfr, hl2]
        exact List.get?_set_eq_of_lt b hi0
      · exact ih h hnd.2 x hxr i hposx

theorem length_filterMap_of_all_isSome {pos : α → Option Nat} :
    ∀ {items : List α}, (∀ x ∈ items, (pos x).isSome) →
      (items.filterMap pos).length = items.length := by
  intro items
  induction items with
  | nil => intro _; rfl
  | cons y rest ih =>
    intro h
    have hy := h y (List.mem_cons_self _ _)
    cases hpos : pos y with
    | none => rw [hpos] at hy; cases hy
    | some i =>
      simp only [List.filterMap_cons, hpos, List.length_cons]
      rw [ih (fun x hx => h x (List.mem_cons_of_mem _ hx))]

theorem placeList_surj {mk : α → Option β} {pos : α → Option Nat}
    {items : List α} {l l' : List β}
    (h : placeList mk pos l items = some l')
    (hnd : (items.map pos).Nodup)
    (hlen : items.length = l.length) :
    ∀ j < l.length, ∃ x ∈ items, pos x = some j := by
  intro j hj
  have hall : ∀ x ∈ items, (pos x).isSome := by
    intro x hx
    obtain ⟨i, b, hp, _, _⟩ := placeList_ok h x hx
    rw [hp]; rfl
  have hbound : ∀ v ∈ items.filterMap pos, v < l.length := by
    intro v hv
    obtain ⟨x, hx, hpx⟩ := List.mem_filterMap.mp hv
    obtain ⟨i, b, hp, _, hi⟩ := placeList_ok h x hx
    rw [hp] at hpx
    cases hpx
    exact hi
  have hfnd : (items.filterMap pos).Nodup := by
    have : items.filterMap pos = (items.map pos).filterMap id := by
      rw [List.filterMap_map]
      rfl
    rw [this]
    refine List.Nodup.filterMap ?_ hnd
    intro a a' b hb hb'
    simp only [Option.mem_def, id] at hb hb'
    rw [hb, hb']
  have hflen : (items.filterMap pos).length = l.length := by
    rw [length_filterMap_of_all_isSome hall, hlen]
  have hsub : (items.filterMap pos).toFinset ⊆ Finset.range l.length := by
    intro v hv
    exact Finset.mem_range.mpr (hbound v (List.mem_toFinset.mp hv))
  have hcard : (Finset.range l.length).card ≤ (items.filterMap pos).toFinset.card := by
    rw [List.toFinset_card_of_nodup hfnd, hflen, Finset.card_range]
  have heq := Finset.eq_of_subset_of_card_le hsub hcard
  have hjmem : j ∈ (items.filterMap pos).toFinset := by
    rw [heq]
    exact Finset.mem_range.mpr hj
  obtain ⟨x, hx, hpx⟩ := List.mem_filterMap.mp (List.mem_toFinset.mp hjmem)
  exact ⟨x, hx, hpx⟩


/-- Inversion of a successful toDevice run: the configuration placement
succeeded, the selector guard held, and the built device carries exactly
those configs and active index. -/
theorem toDevice_inv {dd : DeviceDescriptor} {vn pn sl : String}
    {br : BackingResults} {d : Device}
    (h : toDevice dd vn pn sl br = some d) :
    ∃ cfgs, placeList toConfig cfgPos
        (List.replicate dd.numConfigs defaultConfiguration) dd.configs
        = some cfgs
      ∧ 1 ≤ activeSel br ∧ activeSel br ≤ (cfgs.length : Int)
      ∧ d.fields.configs = cfgs
      ∧ d.fields.activeConfig = some (activeSel br - 1).toNat := by
  unfold toDevice at h
  cases hpl : placeList toConfig cfgPos
      (List.replicate dd.numConfigs defaultConfiguration) dd.configs with
  | none => rw [hpl] at h; cases h
  | some cfgs =>
    rw [hpl] at h
    simp only at h
    split at h
    case isTrue hsel =>
      refine ⟨cfgs, rfl, hsel.1, hsel.2, ?_, ?_⟩ <;>
        · cases h
          rw [Device.make_fields]
    case isFalse => cases h

theorem posOfValue_injective : Function.Injective posOfValue := by
  intro a b h
  unfold posOfValue at h
  split at h <;> split at h <;> first
    | (simp_all; omega)
    | simp_all

theorem toInterface_id {i : InterfaceDescriptor} {intf : Interface}
    (h : toInterface i = some intf) : intf.id = i.interfaceNumber := by
  unfold toInterface at h
  obtain ⟨eps, _, heq⟩ := Option.map_eq_some'.mp h
  rw [← heq]

/- ---------- claim theorems ---------------------------------------------- -/

/-- C1 counterexample material, exposing the inverted condition of
Device.SetConfiguration: with one configuration present and no active
configuration, a SUCCEEDING backing call (error nil) leaves ActiveConfig
unchanged (still nil), while a FAILING call (error 5) is exactly what makes
the source point ActiveConfig at Configs[0]; the call's error is returned
either way. -/
theorem C1_setConfiguration_inverted :
    setConfiguration devOneCfg 1 none = some (devOneCfg, none)
    ∧ devOneCfg.fields.activeConfig = none
    ∧ setConfiguration devOneCfg 1 (some 5) = some (devOneCfgSet, some 5)
    ∧ devOneCfgSet.fields.activeConfig = some 0 := by
  refine ⟨rfl, rfl, ?_, rfl⟩
  decide

/-- C2 counterexample: on the synthetic chain A←B←C with ports 3, 1, 2,
getPorts(C) is not [3, 1] — the source includes the device's own port. -/
theorem C2_getPorts_counterexample : getPorts devC ≠ [3, 1] := by decide

/-- C2 (amended): getPorts walks the Parent chain starting at the device
itself, collects each hop's port number, skipping zero-port hops but
INCLUDING the device's own port, and reverses the sequence so it reads
root-to-device; on the synthetic chain A←B←C with ports 3, 1, 2 it returns
[3, 1, 2]. -/
theorem C2_getPorts_amended (d : Device) :
    getPorts d
      = (((devChain d).map Device.port).filter (fun p => decide (p ≠ 0))).reverse
    ∧ getPorts devC = [3, 1, 2] := by
  refine ⟨?_, by decide⟩
  rw [getPorts, getPortsAux_eq]

/-- C9 counterexample: a parent chain of depth 8 with all ports nonzero
yields a port path of length 8 (the source's MAX_PORTS = 7 is only a slice
capacity, not a bound), and a negative recorded port is passed through, so
the result is not always a sequence of 1-based port numbers either. -/
theorem C9_getPorts_counterexample :
    ¬ (getPorts dev8).length ≤ 7 ∧ getPorts devNeg = [-5] := by decide

/-- C9 (amended): the port path computed by getPorts is the sequence of the
parent chain's nonzero recorded ports, root-most first; its length equals
the number of nonzero-port hops (the device itself included) and is NOT
capped at 7 — a depth-8 chain of nonzero ports yields length 8. -/
theorem C9_getPorts_amended (d : Device) :
    (getPorts d).length
      = (((devChain d).map Device.port).filter (fun p => decide (p ≠ 0))).length
    ∧ (getPorts dev8).length = 8 := by
  refine ⟨?_, by decide⟩
  rw [getPorts, List.length_reverse, getPortsAux_eq]

/-- C7: when the supplied context's disposal signal is already set at call
time, WriteContext and ReadContext return (0, the signal's error)
immediately — the result does not depend on the open-handle, direction or
transfer-type inputs, and no kernel bulk request is issued. -/
theorem C7_preFired_context (ctxErr : GoError) (devOpen : Bool) (e : Endpoint)
    (bufLen ioctlN : Int) (ioctlErr : Option Errno) (ctxWinsRace : Bool) :
    writeContext true ctxErr devOpen e bufLen ioctlN ioctlErr ctxWinsRace
      = ⟨none, 0, some ctxErr⟩
    ∧ readContext true ctxErr devOpen e bufLen ioctlN ioctlErr ctxWinsRace
      = ⟨none, 0, some ctxErr⟩ :=
  ⟨rfl, rfl⟩

/-- C6: gusb.Claim returns a (non-nil) error exactly when the
claim-interface ioctl itself failed; the detach outcome never influences
the returned error (its ENODATA case is the expected no-driver note, not an
error), and gusb.GetDriver turns an ENODATA response into a plain non-error
result. -/
theorem C6_noDriver_not_error (detach claimRes : IoctlRes) (drvName : String) :
    ((gusbClaim detach claimRes).2 ≠ none
        ↔ claimRes.r = -1 ∧ claimRes.errno ≠ none)
    ∧ (gusbClaim detach claimRes).2 = (gusbClaim ⟨0, none⟩ claimRes).2
    ∧ (detach.errno = some ENODATA → detachStep detach = .noDriver)
    ∧ gusbGetDriver drvName (some ENODATA) = (drvName, none) := by
  refine ⟨?_, rfl, ?_, rfl⟩
  · by_cases h : claimRes.r = -1 <;> simp [gusbClaim, h]
  · intro h
    simp [detachStep, h]

/-- C6 witness: a detach ioctl answering ENODATA is noted as the expected
no-driver case. -/
theorem C6_witness : detachStep ⟨-1, some ENODATA⟩ = .noDriver :=
  (C6_noDriver_not_error ⟨-1, some ENODATA⟩ ⟨0, none⟩ "hub").2.2.1 rfl

/-- C4: Context.Close returns the count-reporting error and leaves the
context (hence the disposal signal) untouched while devices are registered;
with no devices registered it fires the signal and returns nil, and a
second Close is a nil-returning no-op on the already-fired context. -/
theorem C4_context_close (c : Context) :
    (c.devices ≠ [] →
      Context.close c = (c, some (.closeOpenDevices c.devices.length)))
    ∧ (c.devices = [] →
      Context.close c = ({ c with doneClosed := true }, none)
      ∧ Context.close { c with doneClosed := true }
          = ({ c with doneClosed := true }, none)) := by
  constructor
  · intro h
    have hl : 0 < c.devices.length := List.length_pos.mpr h
    simp [Context.close, Context.checkOpenDevs, hl]
  · intro h
    constructor <;> simp [Context.close, Context.checkOpenDevs, h]

/-- C4 witness: with two registered devices Close fails reporting the count
2 and changes nothing; after both are deregistered it succeeds, and a
second Close returns nil. -/
theorem C4_witness :
    Context.close ctx2 = (ctx2, some (.closeOpenDevices 2))
    ∧ Context.close ctx0 = ({ ctx0 with doneClosed := true }, none)
    ∧ Context.close { ctx0 with doneClosed := true }
        = ({ ctx0 with doneClosed := true }, none) :=
  ⟨(C4_context_close ctx2).1 (by decide),
   ((C4_context_close ctx0).2 (by decide)).1,
   ((C4_context_close ctx0).2 (by decide)).2⟩

/-- C3: BulkOut fails fast with (0, descriptive error) and no kernel call
whenever the handle is not open, the address has direction bit 7 set, or
the transfer type is not the bulk constant 2; when all three preconditions
hold it issues the kernel bulk request with the endpoint address, length
and timeout.  BulkIn is the mirror with the direction check flipped. -/
theorem C3_bulk_preconditions (devOpen : Bool) (e : Endpoint)
    (len tmo ioctlN : Int) (ioctlErr : Option Errno) :
    ((devOpen = false ∨ Int.land e.address 0x80 ≠ 0
        ∨ e.transferType ≠ TransferTypeBulk) →
      (bulkOut devOpen e len tmo ioctlN ioctlErr).issued = none
      ∧ (bulkOut devOpen e len tmo ioctlN ioctlErr).n = 0
      ∧ (bulkOut devOpen e len tmo ioctlN ioctlErr).err ≠ none)
    ∧ (devOpen = true → Int.land e.address 0x80 = 0 →
        e.transferType = TransferTypeBulk →
      (bulkOut devOpen e len tmo ioctlN ioctlErr).issued
        = some ⟨e.address, len, tmo⟩)
    ∧ ((devOpen = false ∨ Int.land e.address 0x80 = 0
        ∨ e.transferType ≠ TransferTypeBulk) →
      (bulkIn devOpen e len tmo ioctlN ioctlErr).issued = none
      ∧ (bulkIn devOpen e len tmo ioctlN ioctlErr).n = 0
      ∧ (bulkIn devOpen e len tmo ioctlN ioctlErr).err ≠ none)
    ∧ (devOpen = true → Int.land e.address 0x80 ≠ 0 →
        e.transferType = TransferTypeBulk →
      (bulkIn devOpen e len tmo ioctlN ioctlErr).issued
        = some ⟨e.address, len, tmo⟩) := by
  refine ⟨?_, ?_, ?_, ?_⟩
  · intro h
    by_cases hA : devOpen = false
    · simp [bulkOut, hA]
    · by_cases hB : Int.land e.address 0x80 ≠ 0
      · simp [bulkOut, hA, hB]
      · by_cases hC : e.transferType ≠ TransferTypeBulk
        · simp [bulkOut, hA, hB, hC]
        · rcases h with h | h | h <;> simp_all
  · intro h1 h2 h3
    cases ioctlErr <;> simp [bulkOut, h1, h2, h3]
  · intro h
    by_cases hA : devOpen = false
    · simp [bulkIn, hA]
    · by_cases hB : Int.land e.address 0x80 = 0
      · simp [bulkIn, hA, hB]
      · by_cases hC : e.transferType ≠ TransferTypeBulk
        · simp [bulkIn, hA, hB, hC]
        · rcases h with h | h | h <;> simp_all
  · intro h1 h2 h3
    cases ioctlErr <;> simp [bulkIn, h1, h2, h3]

/-- C3 witness: on an open device, BulkOut on the IN endpoint 0x81 fails
fast with no kernel call, while BulkIn on it issues the kernel request
carrying address 0x81, length 4 and timeout 100. -/
theorem C3_witness :
    ((bulkOut true epIn 4 0 0 none).issued = none
      ∧ (bulkOut true epIn 4 0 0 none).n = 0
      ∧ (bulkOut true epIn 4 0 0 none).err ≠ none)
    ∧ (bulkIn true epIn 4 100 7 none).issued = some ⟨0x81, 4, 100⟩ :=
  ⟨(C3_bulk_preconditions true epIn 4 0 0 none).1
      (Or.inr (Or.inl (by decide))),
   (C3_bulk_preconditions true epIn 4 100 7 none).2.2.2 rfl (by decide) rfl⟩

/-- C8: a non-null ActiveConfig always indexes into the same device's
Configs: every device toDevice builds satisfies the invariant, and every
non-panicking SetConfiguration call preserves it. -/
theorem C8_activeConfig_aliases :
    (∀ (dd : DeviceDescriptor) (vn pn sl : String) (br : BackingResults)
        (d : Device), toDevice dd vn pn sl br = some d → activeInv d)
    ∧ (∀ (d : Device) (cfg : Int) (callErr : Option Errno) (d' : Device)
        (e' : Option Errno),
        setConfiguration d cfg callErr = some (d', e') →
        activeInv d → activeInv d') := by
  constructor
  · intro dd vn pn sl br d h
    obtain ⟨cfgs, _, hs1, hs2, hcfg, hac⟩ := toDevice_inv h
    intro i hi
    rw [hac] at hi
    injection hi with hii
    subst hii
    rw [hcfg]
    omega
  · intro d cfg callErr d' e' h hinv
    cases callErr with
    | none =>
      simp only [setConfiguration] at h
      injection h with h1
      injection h1 with h2 h3
      subst h2
      exact hinv
    | some e =>
      simp only [setConfiguration] at h
      by_cases hc : 1 ≤ cfg ∧ cfg - 1 < (d.fields.configs.length : Int)
      · rw [if_pos hc] at h
        injection h with h1
        injection h1 with h2 h3
        subst h2
        intro i hi
        simp only [Device.withFields, Device.make_fields] at hi ⊢
        injection hi with hii
        subst hii
        omega
      · rw [if_neg hc] at h
        cases h

/-- C8 witness: the invariant holds of the concretely built device dTest
(ActiveConfig = index 0 < 2 configs) and of its SetConfiguration successor
dTest2 (ActiveConfig = index 1 < 2 configs). -/
theorem C8_witness :
    0 < dTest.fields.configs.length ∧ 1 < dTest2.fields.configs.length :=
  ⟨C8_activeConfig_aliases.1 ddTest "AcmeFile" "WidgetFile" "/sys/x" brTest
      dTest (by decide) 0 (by decide),
   C8_activeConfig_aliases.2 dTest 2 (some 5) dTest2 (some 5) (by decide)
      (C8_activeConfig_aliases.1 ddTest "AcmeFile" "WidgetFile" "/sys/x" brTest
        dTest (by decide))
      1 (by decide)⟩

/-- C10: a successful toDevice run requires every configuration Value in
[1, declared count] and the effective active-configuration selector
(fetched value, defaulting to 1 on fetch failure) in [1, declared count];
in particular a descriptor declaring zero configurations crashes (returns
none, modelling the Go index panic) whenever the active-config fetch
fails, since the defaulted selector 1 indexes an empty Configs. -/
theorem C10_toDevice_bounds (dd : DeviceDescriptor) (vn pn sl : String)
    (br : BackingResults) :
    (∀ d, toDevice dd vn pn sl br = some d →
      (∀ c ∈ dd.configs, 1 ≤ c.value ∧ c.value ≤ dd.numConfigs)
      ∧ 1 ≤ activeSel br ∧ activeSel br ≤ (dd.numConfigs : Int))
    ∧ (dd.numConfigs = 0 → br.activeConfig.2 ≠ none →
        toDevice dd vn pn sl br = none) := by
  constructor
  · intro d h
    obtain ⟨cfgs, hpl, h1, h2, _, _⟩ := toDevice_inv h
    have hlen : cfgs.length = dd.numConfigs := by
      have hl := placeList_length hpl
      simpa using hl
    refine ⟨?_, h1, by rwa [hlen] at h2⟩
    intro c hc
    obtain ⟨i, b, hp, _, hi⟩ := placeList_ok hpl c hc
    unfold cfgPos posOfValue at hp
    split at hp
    · cases hp
    case isFalse hv =>
      injection hp with hip
      simp only [List.length_replicate] at hi
      omega
  · intro h0 herr
    cases htd : toDevice dd vn pn sl br with
    | none => rfl
    | some d =>
      exfalso
      obtain ⟨cfgs, hpl, h1, h2, _, _⟩ := toDevice_inv htd
      have hlen : cfgs.length = 0 := by
        have hl := placeList_length hpl
        simpa [h0] using hl
      have hsel : activeSel br = 1 := by
        unfold activeSel
        simp [herr]
      rw [hsel] at h1 h2
      rw [hlen] at h2
      simp at h2

/-- C10 witness: the zero-configuration descriptor with a failing
active-config fetch makes toDevice crash (none), and the successfully
built dTest certifies its configuration Values in range. -/
theorem C10_witness :
    toDevice ddZero "" "" "" brFail = none
    ∧ (1 ≤ cfgD2.value ∧ cfgD2.value ≤ ddTest.numConfigs) :=
  ⟨(C10_toDevice_bounds ddZero "" "" "" brFail).2 rfl (by decide),
   ((C10_toDevice_bounds ddTest "AcmeFile" "WidgetFile" "/sys/x" brTest).1
       dTest (by decide)).1 cfgD2 (by decide)⟩

/-- C5: model building is positional: Configs has the declared length and
(under distinct selector Values) the record with Value k sits at index
k - 1; each built configuration's Interfaces has the declared length and
(under distinct interface numbers) the record with number n sits at index
n; toInterface stamps the interface number into the stored record, so when
the interface numbers are distinct and cover the declared count, the
interface stored at index i has interface number i. -/
theorem C5_positional_build (dd : DeviceDescriptor) (vn pn sl : String)
    (br : BackingResults) (d : Device)
    (hbuild : toDevice dd vn pn sl br = some d) :
    d.fields.configs.length = dd.numConfigs
    ∧ ((dd.configs.map ConfigDescriptor.value).Nodup →
        ∀ c ∈ dd.configs, d.fields.configs.get? (c.value - 1) = toConfig c)
    ∧ (∀ (c : ConfigDescriptor) (cfg : Configuration), toConfig c = some cfg →
        cfg.interfaces.length = c.numInterfaces
        ∧ ((c.interfaces.map InterfaceDescriptor.interfaceNumber).Nodup →
            ∀ i ∈ c.interfaces,
              cfg.interfaces.get? i.interfaceNumber = toInterface i)
        ∧ (∀ (i : InterfaceDescriptor) (intf : Interface),
            toInterface i = some intf → intf.id = i.interfaceNumber)
        ∧ ((c.interfaces.map InterfaceDescriptor.interfaceNumber).Nodup →
            c.interfaces.length = c.numInterfaces →
            ∀ j, ∀ hj : j < cfg.interfaces.length,
              (cfg.interfaces.get ⟨j, hj⟩).id = j)) := by
  obtain ⟨cfgs, hpl, _, _, hcfg, _⟩ := toDevice_inv hbuild
  have hlen : cfgs.length = dd.numConfigs := by
    have hl := placeList_length hpl
    simpa using hl
  refine ⟨by rw [hcfg, hlen], ?_, ?_⟩
  · intro hv c hc
    have hnd : (dd.configs.map cfgPos).Nodup := by
      have hmm : dd.configs.map cfgPos
          = (dd.configs.map ConfigDescriptor.value).map posOfValue := by
        rw [List.map_map]
        rfl
      rw [hmm]
      exact hv.map posOfValue_injective
    obtain ⟨i, b, hp, _, _⟩ := placeList_ok hpl c hc
    obtain ⟨b', hm', hget⟩ := placeList_get hpl hnd c hc i hp
    have hi : i = c.value - 1 := by
      unfold cfgPos posOfValue at hp
      split at hp
      · cases hp
      · injection hp with hip
        omega
    rw [hcfg, ← hi, hget, hm']
  · intro c cfg hcfgc
    obtain ⟨ifs, hpl2, heq⟩ := Option.map_eq_some'.mp hcfgc
    have hifs : cfg.interfaces = ifs := by rw [← heq]
    have hlen2 : ifs.length = c.numInterfaces := by
      have hl := placeList_length hpl2
      simpa using hl
    have hndconv :
        (c.interfaces.map InterfaceDescriptor.interfaceNumber).Nodup →
        (c.interfaces.map intfPos).Nodup := by
      intro hn
      have hmm : c.interfaces.map intfPos
          = (c.interfaces.map InterfaceDescriptor.interfaceNumber).map some := by
        rw [List.map_map]
        rfl
      rw [hmm]
      exact hn.map (Option.some_injective _)
    refine ⟨by rw [hifs, hlen2], ?_, fun i intf h => toInterface_id h, ?_⟩
    · intro hn i hi
      obtain ⟨i0, b, hp, _, _⟩ := placeList_ok hpl2 i hi
      obtain ⟨b', hm', hget⟩ := placeList_get hpl2 (hndconv hn) i hi i0 hp
      have hi0 : i0 = i.interfaceNumber := by
        unfold intfPos at hp
        injection hp with hip
        omega
      rw [hifs, ← hi0, hget, hm']
    · intro hn hcov j hj
      have hj' : j < c.numInterfaces := by
        rw [hifs, hlen2] at hj
        exact hj
      have hsur := placeList_surj hpl2 (hndconv hn) (by simp [hcov])
      have hjr : j < (List.replicate c.numInterfaces defaultInterface).length := by
        simpa using hj'
      obtain ⟨x, hx, hpx⟩ := hsur j hjr
      have hxn : x.interfaceNumber = j := by
        unfold intfPos at hpx
        exact Option.some.inj hpx
      obtain ⟨bx, hmx, hgetx⟩ := placeList_get hpl2 (hndconv hn) x hx j hpx
      have hid : bx.id = j := by rw [toInterface_id hmx, hxn]
      have hsome : cfg.interfaces.get? j = some bx := by
        rw [hifs]
        exact hgetx
      have hgg : cfg.interfaces.get ⟨j, hj⟩ = bx := by
        have hq := List.get?_eq_get hj
        rw [hq] at hsome
        exact Option.some.inj hsome
      rw [hgg, hid]

/-- C5 witness: the concretely built dTest has Configs of the declared
length 2 and stores the Value-2 configuration record at index 1. -/
theorem C5_witness :
    dTest.fields.configs.length = 2
    ∧ dTest.fields.configs.get? 1 = toConfig cfgD2 :=
  ⟨(C5_positional_build ddTest "AcmeFile" "WidgetFile" "/sys/x" brTest dTest
      (by decide)).1,
   (C5_positional_build ddTest "AcmeFile" "WidgetFile" "/sys/x" brTest dTest
      (by decide)).2.1 (by decide) cfgD2 (by decide)⟩

end Usb
